import Mathlib

/-!
Shallow embedding of the PO-confirmation repository.

The repository consists of one SQL migration bundle (phases 18, 20 and 21) and
one React component (DualPOFlow.tsx).  This file embeds, directly from those
sources:

* the two row-level-security policies on public.orders
  ("Clients can create own orders" and "Clients can update own PO fields",
  in their final phase 21 form),
* the BEFORE UPDATE trigger function enforce_safe_user_profile_update on
  public.users (phase 18),
* the submit handler and resume effect of the DualPOFlow component,
* the three migrations themselves, as transactional state transformers over a
  small catalog state (columns, policies, triggers, functions, migration log).

Timestamps are modeled as Option Nat (none = SQL NULL / JS null), identifiers
as Nat, SQL text as String.  SQL IS DISTINCT FROM on the modeled column types
coincides with decidable inequality.
-/

/-- One row of the public.orders table, restricted to the columns named by the
migrations and the component.  Timestamps are Option Nat, none meaning NULL. -/
structure OrderRow where
  id : Nat
  client_id : Nat
  status : String
  amount : Int
  supplier_id : Option Nat
  not_test_order_confirmed_at : Option Nat
  payment_terms_confirmed_at : Option Nat
  client_po_confirmation_submitted_at : Option Nat
  client_po_uploaded : Bool
  payment_reference : Option String
  payment_notes : Option String
  payment_submitted_at : Option Nat
  deriving DecidableEq, Repr

/-- The acting principal as the store sees it: the value of auth.uid()
(none when there is no authenticated user) and the role reported for it. -/
structure Principal where
  uid : Option Nat
  role : Option String
  deriving DecidableEq, Repr

/-- Modelled from the spec: get_user_role() is defined by an earlier migration
that is not part of this snapshot; the spec describes it as "a role lookup
exposing the role of principal X, queried fresh".  It is modeled as the role
carried by the acting principal, none when the principal has no users row. -/
def get_user_role (p : Principal) : Option String := p.role

/-- Outcome of one attempted row write under row-level security.
A row that fails the USING clause is invisible to the UPDATE (zero rows
affected) and a row that fails WITH CHECK raises a row-level-security
violation; both leave the row unchanged and are folded into denied.
errored is a run-time error raised while evaluating a policy expression,
which aborts the statement. -/
inductive WriteOutcome where
  | allowed
  | denied
  | errored (msg : String)
  deriving DecidableEq, Repr

/-- USING clause of the phase 21 policy "Clients can update own PO fields":
auth.uid() = client_id, evaluated on the existing row.  A NULL uid compares
as not-true. -/
def orderUpdateUsing (p : Principal) (row : OrderRow) : Bool :=
  p.uid == some row.client_id

/-- The scalar subquery (SELECT status FROM public.orders WHERE id = orders.id)
of the phase 21 WITH CHECK clause.  Inside the subquery the name orders
resolves to the FROM table of the subquery itself, which shadows the policy
row, so the WHERE clause compares the id of each inner row with itself and the
subquery ranges over every row of the table that is visible to the statement.
A scalar subquery yields NULL when it returns no row and raises an error when
it returns more than one row.  (SELECT policies from migrations outside this
snapshot may shrink the visible row set; the concrete counterexamples below
therefore use two rows owned by the same client, which are visible to their
owner under any such policy.) -/
def poStatusSubquery (store : List OrderRow) : Except String (Option String) :=
  match store.filter (fun inner => inner.id == inner.id) with
  | [] => Except.ok none
  | [r] => Except.ok (some r.status)
  | _ :: _ :: _ => Except.error "more than one row returned by a subquery used as an expression"

/-- WITH CHECK clause of the phase 21 policy, evaluated on the proposed new
row: auth.uid() = client_id AND status = (SELECT status FROM public.orders
WHERE id = orders.id).  The conjunction is evaluated left to right; comparison
with a NULL subquery result is not-true. -/
def orderUpdateWithCheck (store : List OrderRow) (p : Principal) (newRow : OrderRow) :
    Except String Bool :=
  if p.uid == some newRow.client_id then
    match poStatusSubquery store with
    | Except.error e => Except.error e
    | Except.ok none => Except.ok false
    | Except.ok (some st) => Except.ok (newRow.status == st)
  else Except.ok false

/-- Outcome of an UPDATE of oldRow to newRow attempted by p, where store is the
snapshot of public.orders visible to the statement: rows failing USING are not
updated; otherwise WITH CHECK decides, and an error raised while evaluating it
aborts the statement. -/
def orderUpdateOutcome (store : List OrderRow) (p : Principal) (oldRow newRow : OrderRow) :
    WriteOutcome :=
  if orderUpdateUsing p oldRow then
    match orderUpdateWithCheck store p newRow with
    | Except.ok true => WriteOutcome.allowed
    | Except.ok false => WriteOutcome.denied
    | Except.error e => WriteOutcome.errored e
  else WriteOutcome.denied

/-- Outcome of an INSERT of newRow attempted by p under the phase 20 policy
"Clients can create own orders": WITH CHECK (auth.uid() = client_id AND
get_user_role() = CLIENT). -/
def orderInsertOutcome (p : Principal) (newRow : OrderRow) : WriteOutcome :=
  if (p.uid == some newRow.client_id) && (get_user_role p == some "CLIENT") then
    WriteOutcome.allowed
  else WriteOutcome.denied

/-- A draft order owned by client 7. -/
def orderA : OrderRow :=
  { id := 1, client_id := 7, status := "DRAFT", amount := 100, supplier_id := some 3,
    not_test_order_confirmed_at := none, payment_terms_confirmed_at := none,
    client_po_confirmation_submitted_at := none, client_po_uploaded := false,
    payment_reference := none, payment_notes := none, payment_submitted_at := none }

/-- A second order owned by the same client 7. -/
def orderB : OrderRow :=
  { orderA with id := 2, status := "SHIPPED" }

/-- A snapshot of public.orders holding exactly one row. -/
def storeOne : List OrderRow := [orderA]

/-- A snapshot of public.orders holding two rows, both owned by client 7. -/
def storeTwo : List OrderRow := [orderA, orderB]

/-- Client 7 acting as an authenticated CLIENT. -/
def clientSeven : Principal := { uid := some 7, role := some "CLIENT" }

/-- The update of orderA that only sets the three confirmation timestamps and
the upload flag, leaving status untouched. -/
def orderATimestamps : OrderRow :=
  { orderA with
    not_test_order_confirmed_at := some 100,
    payment_terms_confirmed_at := some 100,
    client_po_confirmation_submitted_at := some 100,
    client_po_uploaded := true }

/-- The update of orderA that changes amount and supplier_id, leaving status
untouched. -/
def orderAAmount : OrderRow :=
  { orderA with amount := 999, supplier_id := some 4 }

/-- The update of orderA that changes status only. -/
def orderAStatusChanged : OrderRow :=
  { orderA with status := "SHIPPED" }

/-- C1: the claim states that a client update whose proposed status differs
from the current status of the row is denied, the comparison being made
against the status of that row freshly re-read at evaluation time.  In the
code the subquery of the WITH CHECK clause is self-shadowed and hence not
correlated with the updated row: as soon as the client can see two orders,
every update by that client, even one leaving status unchanged, aborts with a
run-time error instead of comparing against the updated row; with a single
visible row the comparison hits that row only by coincidence. -/
theorem clientUpdatePolicy_subquery_not_correlated :
    orderUpdateOutcome storeTwo clientSeven orderA orderAStatusChanged =
      WriteOutcome.errored "more than one row returned by a subquery used as an expression" ∧
    orderUpdateOutcome storeTwo clientSeven orderA orderA =
      WriteOutcome.errored "more than one row returned by a subquery used as an expression" ∧
    orderUpdateOutcome storeOne clientSeven orderA orderAStatusChanged = WriteOutcome.denied := by
  decide

/-- C5: the claim states that a client update leaving status unchanged is
allowed whatever other columns it changes.  This holds when the client sees a
single row (both for the confirmation-timestamp update and for an update of
amount and supplier_id), but as soon as the client sees two rows the
uncorrelated status subquery errors and even the pure timestamp update is
aborted rather than allowed. -/
theorem client_nonstatus_update_outcomes :
    orderUpdateOutcome storeOne clientSeven orderA orderATimestamps = WriteOutcome.allowed ∧
    orderUpdateOutcome storeOne clientSeven orderA orderAAmount = WriteOutcome.allowed ∧
    orderUpdateOutcome storeTwo clientSeven orderA orderATimestamps =
      WriteOutcome.errored "more than one row returned by a subquery used as an expression" := by
  decide

/-- C2: an order write by a principal that does not own the target row is
denied: an UPDATE fails the USING clause whenever auth.uid() differs from the
client_id of the existing row, and an INSERT fails WITH CHECK whenever
auth.uid() differs from the client_id of the new row or the role reported by
get_user_role() is not CLIENT. -/
theorem order_write_denied_for_non_owner_or_non_client :
    (∀ (store : List OrderRow) (p : Principal) (oldRow newRow : OrderRow),
      p.uid ≠ some oldRow.client_id →
      orderUpdateOutcome store p oldRow newRow = WriteOutcome.denied) ∧
    (∀ (p : Principal) (newRow : OrderRow),
      p.uid ≠ some newRow.client_id ∨ get_user_role p ≠ some "CLIENT" →
      orderInsertOutcome p newRow = WriteOutcome.denied) := by
  constructor
  · intro store p oldRow newRow h
    have hb : (p.uid == some oldRow.client_id) = false := by
      simpa using h
    simp [orderUpdateOutcome, orderUpdateUsing, hb]
  · intro p newRow h
    rcases h with h | h
    · have hb : (p.uid == some newRow.client_id) = false := by
        simpa using h
      simp [orderInsertOutcome, hb]
    · have hb : (get_user_role p == some "CLIENT") = false := by
        simpa using h
      simp [orderInsertOutcome, hb]

/-- A stranger principal: authenticated as user 9 with role CLIENT, who does
not own orderA. -/
def strangerNine : Principal := { uid := some 9, role := some "CLIENT" }

/-- Client 7 acting while get_user_role() reports ADMIN. -/
def adminSeven : Principal := { uid := some 7, role := some "ADMIN" }

/-- C2 witness: the non-owner stranger is denied the update of orderA, and the
owner whose role is not CLIENT is denied the insert of orderA. -/
theorem order_write_denied_for_non_owner_or_non_client_w :
    orderUpdateOutcome storeOne strangerNine orderA orderATimestamps = WriteOutcome.denied ∧
    orderInsertOutcome adminSeven orderA = WriteOutcome.denied :=
  ⟨order_write_denied_for_non_owner_or_non_client.1 storeOne strangerNine orderA orderATimestamps
      (by decide),
    order_write_denied_for_non_owner_or_non_client.2 adminSeven orderA (Or.inr (by decide))⟩

/-- One row of the public.users table, restricted to the columns named by the
phase 18 trigger function. -/
structure UserRow where
  id : Nat
  role : String
  verified : Bool
  status : String
  kyc_status : String
  public_id : String
  date_joined : Nat
  credit_limit : Int
  credit_used : Int
  current_balance : Int
  rating : Int
  deriving DecidableEq, Repr

/-- The execution context of the trigger: the database session user
(current_user) and the authenticated principal (auth.uid(), none when NULL). -/
structure TriggerCtx where
  current_user : String
  auth_uid : Option Nat
  deriving DecidableEq, Repr

/-- SELECT role INTO v_caller_role FROM public.users WHERE id = uid.
SELECT INTO leaves the variable NULL when no row matches, modeled by none. -/
def lookupRole (users : List UserRow) (uid : Nat) : Option String :=
  (users.find? (fun u => u.id == uid)).map (fun u => u.role)

/-- OLD.x IS DISTINCT FROM NEW.x over the seven protected columns of the phase
18 guard; on the modeled column types IS DISTINCT FROM is plain inequality. -/
def sensitiveFieldChanged (old new : UserRow) : Bool :=
  (old.role != new.role) || (old.verified != new.verified) || (old.status != new.status) ||
  (old.kyc_status != new.kyc_status) || (old.public_id != new.public_id) ||
  (old.date_joined != new.date_joined) || (old.credit_limit != new.credit_limit)

/-- The phase 18 BEFORE UPDATE trigger function
public.enforce_safe_user_profile_update, translated clause by clause:
allow when current_user is not one of authenticated and anon (trusted
SECURITY DEFINER context); allow when auth.uid() is NULL; allow when the role
of the caller, read fresh from public.users, is ADMIN; otherwise raise an
exception when any of the seven protected columns changes; else return NEW. -/
def enforce_safe_user_profile_update (ctx : TriggerCtx) (users : List UserRow)
    (old new : UserRow) : Except String UserRow :=
  if ¬ (ctx.current_user = "authenticated" ∨ ctx.current_user = "anon") then
    Except.ok new
  else
    match ctx.auth_uid with
    | none => Except.ok new
    | some uid =>
      let v_caller_role := lookupRole users uid
      if v_caller_role = some "ADMIN" then Except.ok new
      else if sensitiveFieldChanged old new then
        Except.error "Only safe profile fields can be updated by users"
      else Except.ok new

/-- Effect of one UPDATE of the stored row old to new on the users table: a
BEFORE trigger that raises an exception aborts the whole statement, leaving
every column of every row unchanged; otherwise the row returned by the trigger
replaces old. -/
def runUserUpdate (ctx : TriggerCtx) (users : List UserRow) (old new : UserRow) :
    List UserRow :=
  match enforce_safe_user_profile_update ctx users old new with
  | Except.ok r => users.map (fun u => if u.id == old.id then r else u)
  | Except.error _ => users

/-- C3: for a direct (end-user session) update by an authenticated principal
whose freshly read role is not ADMIN, changing any of the seven protected
columns raises the exception and the whole mutation is aborted, the stored
table being left unchanged; an update leaving all seven protected columns
unchanged (in particular one touching only credit_used, current_balance or
rating) is allowed and returns NEW. -/
theorem user_profile_sensitive_rejected_safe_allowed (ctx : TriggerCtx)
    (users : List UserRow) (old new : UserRow) (u : Nat)
    (hdirect : ctx.current_user = "authenticated" ∨ ctx.current_user = "anon")
    (huid : ctx.auth_uid = some u)
    (hrole : lookupRole users u ≠ some "ADMIN") :
    (sensitiveFieldChanged old new = true →
      enforce_safe_user_profile_update ctx users old new =
        Except.error "Only safe profile fields can be updated by users" ∧
      runUserUpdate ctx users old new = users) ∧
    (sensitiveFieldChanged old new = false →
      enforce_safe_user_profile_update ctx users old new = Except.ok new) := by
  have hguard :
      enforce_safe_user_profile_update ctx users old new =
        (if sensitiveFieldChanged old new then
          Except.error "Only safe profile fields can be updated by users"
        else Except.ok new) := by
    unfold enforce_safe_user_profile_update
    rw [if_neg (not_not.mpr hdirect), huid]
    simp [hrole]
  constructor
  · intro hch
    have he : enforce_safe_user_profile_update ctx users old new =
        Except.error "Only safe profile fields can be updated by users" := by
      rw [hguard, if_pos hch]
    exact ⟨he, by unfold runUserUpdate; rw [he]⟩
  · intro hch
    rw [hguard, hch]
    simp

/-- Caller 5 with role CLIENT. -/
def userFive : UserRow :=
  { id := 5, role := "CLIENT", verified := true, status := "ACTIVE", kyc_status := "APPROVED",
    public_id := "U-5", date_joined := 20, credit_limit := 1000, credit_used := 0,
    current_balance := 0, rating := 4 }

/-- The update of userFive that promotes its role to ADMIN. -/
def userFiveRoleChanged : UserRow :=
  { userFive with role := "ADMIN" }

/-- The update of userFive that touches only the financial counters. -/
def userFiveCounters : UserRow :=
  { userFive with
    credit_used := 250,
    current_balance := -250,
    rating := 5 }

/-- A direct end-user session authenticated as user 5. -/
def ctxAuthFive : TriggerCtx := { current_user := "authenticated", auth_uid := some 5 }

/-- The users table holding exactly userFive. -/
def usersStore : List UserRow := [userFive]

/-- C3 witness: user 5, a direct non-admin caller, is rejected when promoting
its own role, the table is left unchanged by the aborted mutation, and the
pure counter update is allowed. -/
theorem user_profile_sensitive_rejected_safe_allowed_w :
    (enforce_safe_user_profile_update ctxAuthFive usersStore userFive userFiveRoleChanged =
      Except.error "Only safe profile fields can be updated by users" ∧
    runUserUpdate ctxAuthFive usersStore userFive userFiveRoleChanged = usersStore) ∧
    enforce_safe_user_profile_update ctxAuthFive usersStore userFive userFiveCounters =
      Except.ok userFiveCounters := by
  have h := user_profile_sensitive_rejected_safe_allowed ctxAuthFive usersStore userFive
    userFiveRoleChanged 5 (Or.inl rfl) rfl (by decide)
  have h2 := user_profile_sensitive_rejected_safe_allowed ctxAuthFive usersStore userFive
    userFiveCounters 5 (Or.inl rfl) rfl (by decide)
  exact ⟨h.1 (by decide), h2.2 (by decide)⟩

/-- C4: the guard decides in this order, each early branch allowing
unconditionally: a session whose current_user is neither authenticated nor
anon (trusted system context) is allowed any change; a session with no
authenticated principal is allowed; a caller whose role, freshly read from the
users table, is ADMIN is allowed; and only in the remaining case is the
protected-column guard applied. -/
theorem user_profile_guard_check_order :
    (∀ (ctx : TriggerCtx) (users : List UserRow) (old new : UserRow),
      ¬ (ctx.current_user = "authenticated" ∨ ctx.current_user = "anon") →
      enforce_safe_user_profile_update ctx users old new = Except.ok new) ∧
    (∀ (ctx : TriggerCtx) (users : List UserRow) (old new : UserRow),
      ctx.auth_uid = none →
      enforce_safe_user_profile_update ctx users old new = Except.ok new) ∧
    (∀ (ctx : TriggerCtx) (users : List UserRow) (old new : UserRow) (u : Nat),
      ctx.auth_uid = some u → lookupRole users u = some "ADMIN" →
      enforce_safe_user_profile_update ctx users old new = Except.ok new) ∧
    (∀ (ctx : TriggerCtx) (users : List UserRow) (old new : UserRow) (u : Nat),
      (ctx.current_user = "authenticated" ∨ ctx.current_user = "anon") →
      ctx.auth_uid = some u → lookupRole users u ≠ some "ADMIN" →
      (sensitiveFieldChanged old new = true →
        enforce_safe_user_profile_update ctx users old new =
          Except.error "Only safe profile fields can be updated by users") ∧
      (sensitiveFieldChanged old new = false →
        enforce_safe_user_profile_update ctx users old new = Except.ok new)) := by
  refine ⟨?_, ?_, ?_, ?_⟩
  · intro ctx users old new h
    unfold enforce_safe_user_profile_update
    rw [if_pos h]
  · intro ctx users old new h
    unfold enforce_safe_user_profile_update
    rw [h]
    split <;> rfl
  · intro ctx users old new u hu hr
    unfold enforce_safe_user_profile_update
    rw [hu]
    split
    · rfl
    · simp [hr]
  · intro ctx users old new u hd hu hr
    constructor
    · intro hch
      unfold enforce_safe_user_profile_update
      rw [if_neg (not_not.mpr hd), hu]
      simp [hr, hch]
    · intro hch
      unfold enforce_safe_user_profile_update
      rw [if_neg (not_not.mpr hd), hu]
      simp [hr, hch]

/-- A trusted SECURITY DEFINER context: current_user is the function owner. -/
def ctxDefiner : TriggerCtx := { current_user := "postgres", auth_uid := some 5 }

/-- A service-role session with no authenticated principal. -/
def ctxNoAuth : TriggerCtx := { current_user := "authenticated", auth_uid := none }

/-- Administrator 8. -/
def userEightAdmin : UserRow :=
  { userFive with
    id := 8,
    role := "ADMIN",
    public_id := "U-8" }

/-- A users table holding userFive and the administrator userEightAdmin. -/
def usersStoreTwo : List UserRow := [userFive, userEightAdmin]

/-- A direct end-user session authenticated as administrator 8. -/
def ctxAuthEight : TriggerCtx := { current_user := "authenticated", auth_uid := some 8 }

/-- C4 witness: the trusted context and the admin caller may promote a role,
the unauthenticated session is allowed, and the plain non-admin caller falls
through to the protected-column guard. -/
theorem user_profile_guard_check_order_w :
    enforce_safe_user_profile_update ctxDefiner usersStore userFive userFiveRoleChanged =
      Except.ok userFiveRoleChanged ∧
    enforce_safe_user_profile_update ctxNoAuth usersStore userFive userFiveRoleChanged =
      Except.ok userFiveRoleChanged ∧
    enforce_safe_user_profile_update ctxAuthEight usersStoreTwo userFive userFiveRoleChanged =
      Except.ok userFiveRoleChanged ∧
    enforce_safe_user_profile_update ctxAuthFive usersStore userFive userFiveRoleChanged =
      Except.error "Only safe profile fields can be updated by users" := by
  refine ⟨?_, ?_, ?_, ?_⟩
  · exact user_profile_guard_check_order.1 ctxDefiner usersStore userFive userFiveRoleChanged
      (by decide)
  · exact user_profile_guard_check_order.2.1 ctxNoAuth usersStore userFive userFiveRoleChanged rfl
  · exact user_profile_guard_check_order.2.2.1 ctxAuthEight usersStoreTwo userFive
      userFiveRoleChanged 8 rfl (by decide)
  · exact (user_profile_guard_check_order.2.2.2 ctxAuthFive usersStore userFive
      userFiveRoleChanged 5 (Or.inl rfl) rfl (by decide)).1 (by decide)

/-- C10: an authenticated, non-trusted caller whose id has no row in the users
table (so the fresh role lookup yields NULL) does not receive the admin
bypass: a change to a protected column is still rejected. -/
theorem guard_without_role_row_rejects_sensitive (ctx : TriggerCtx)
    (users : List UserRow) (old new : UserRow) (u : Nat)
    (hdirect : ctx.current_user = "authenticated" ∨ ctx.current_user = "anon")
    (huid : ctx.auth_uid = some u)
    (hnorow : users.find? (fun w => w.id == u) = none)
    (hch : sensitiveFieldChanged old new = true) :
    enforce_safe_user_profile_update ctx users old new =
      Except.error "Only safe profile fields can be updated by users" := by
  unfold enforce_safe_user_profile_update
  rw [if_neg (not_not.mpr hdirect), huid]
  simp [lookupRole, hnorow, hch]

/-- A direct end-user session authenticated as user 42, who has no users row. -/
def ctxGhost : TriggerCtx := { current_user := "authenticated", auth_uid := some 42 }

/-- C10 witness: caller 42 has no row in the single-row users table, and its
attempt to change the protected status column of userFive is rejected. -/
theorem guard_without_role_row_rejects_sensitive_w :
    enforce_safe_user_profile_update ctxGhost usersStore userFive
      { userFive with status := "SUSPENDED" } =
      Except.error "Only safe profile fields can be updated by users" :=
  guard_without_role_row_rejects_sensitive ctxGhost usersStore userFive
    { userFive with status := "SUSPENDED" } 42 (Or.inl rfl) rfl (by decide) (by decide)

/-- The two UI steps of DualPOFlow: the useState literal union
"confirmation" | "pending".  confirmation is the pre-submission (Unconfirmed)
state and pending the Submitted state. -/
inductive Step where
  | confirmation
  | pending
  deriving DecidableEq, Repr

/-- One notification as passed to addNotification. -/
structure Notification where
  ntype : String
  title : String
  message : String
  actionUrl : String
  deriving DecidableEq, Repr

/-- Modelled from the spec: OrderStatus.PENDING_ADMIN_CONFIRMATION is imported
from ../types/types, which is not part of this snapshot; the spec calls it the
"pending admin confirmation" status value.  Its concrete text is irrelevant to
the claims. -/
def OrderStatus.PENDING_ADMIN_CONFIRMATION : String := "PENDING_ADMIN_CONFIRMATION"

/-- The environment of one call of handleSubmitForConfirmation: the current
user from the store, the instant produced by new Date().toISOString(), and the
outcomes of the two awaited writes (submitClientPOConfirmation and
updateOrder); a false flag means the corresponding await throws. -/
structure FlowEnv where
  currentUser : Option Nat
  now : Nat
  serviceOk : Bool
  updateOk : Bool
  deriving DecidableEq, Repr

/-- Everything observable after one call of handleSubmitForConfirmation: the
order row as left by updateOrder, the notifications enqueued by
addNotification, the step after any setStep, whether the service write was
issued, and which toast was shown. -/
structure SubmitOutcome where
  order : OrderRow
  notifications : List Notification
  step : Step
  serviceWriteHappened : Bool
  toastSuccess : Bool
  toastError : Bool
  deriving DecidableEq, Repr

/-- The single notification enqueued on success. -/
def poSubmittedNotification : Notification :=
  { ntype := "order", title := "notifications.poSubmittedTitle",
    message := "notifications.poSubmittedMessage", actionUrl := "/app?tab=orders" }

/-- handleSubmitForConfirmation from DualPOFlow.tsx, translated line by line:
return early when there is no current user or either checkbox is unchecked
(no write of any kind); otherwise take one timestamp and run the try block:
the service write, then updateOrder setting the status and the three
confirmation timestamps to that one instant, then one addNotification, then
setStep to pending and a success toast; a throw from either await is caught,
shows the error toast and leaves the order, notifications and step untouched. -/
def handleSubmitForConfirmation (env : FlowEnv)
    (isNotTestOrderConfirmed isPaymentTermsConfirmed : Bool)
    (order : OrderRow) (step : Step) : SubmitOutcome :=
  if env.currentUser = none then
    { order := order, notifications := [], step := step,
      serviceWriteHappened := false, toastSuccess := false, toastError := false }
  else if isNotTestOrderConfirmed = false ∨ isPaymentTermsConfirmed = false then
    { order := order, notifications := [], step := step,
      serviceWriteHappened := false, toastSuccess := false, toastError := false }
  else
    let confirmationTimestamp := env.now
    if env.serviceOk = false then
      { order := order, notifications := [], step := step,
        serviceWriteHappened := false, toastSuccess := false, toastError := true }
    else if env.updateOk = false then
      { order := order, notifications := [], step := step,
        serviceWriteHappened := true, toastSuccess := false, toastError := true }
    else
      { order := { order with
          status := OrderStatus.PENDING_ADMIN_CONFIRMATION,
          not_test_order_confirmed_at := some confirmationTimestamp,
          payment_terms_confirmed_at := some confirmationTimestamp,
          client_po_confirmation_submitted_at := some confirmationTimestamp },
        notifications := [poSubmittedNotification],
        step := Step.pending,
        serviceWriteHappened := true, toastSuccess := true, toastError := false }

/-- hasSubmittedConfirmation from the restore effect of DualPOFlow:
Boolean(submitted_at or (not_test_confirmed_at and payment_terms_confirmed_at)). -/
def hasSubmittedConfirmation (o : OrderRow) : Bool :=
  o.client_po_confirmation_submitted_at.isSome ||
    (o.not_test_order_confirmed_at.isSome && o.payment_terms_confirmed_at.isSome)

/-- The restore effect: find the current order by id; when found and
hasSubmittedConfirmation holds, setStep to pending, otherwise leave the step
as it is. -/
def resumeEffect (orders : List OrderRow) (orderId : Nat) (step : Step) : Step :=
  match orders.find? (fun item => item.id == orderId) with
  | none => step
  | some currentOrder =>
    if hasSubmittedConfirmation currentOrder then Step.pending else step

/-- The initial value of the step state: useState of "confirmation". -/
def initialStep : Step := Step.confirmation

/-- The step shown after mounting the component over a given orders store. -/
def loadStep (orders : List OrderRow) (orderId : Nat) : Step :=
  resumeEffect orders orderId initialStep

/-- C6: with a current user, both checkboxes true and both writes succeeding,
the submit sets the three confirmation timestamps to the one instant taken at
submit time, sets the status to the pending-admin-confirmation value, enqueues
exactly one notification and moves the step to pending; and when either
checkbox is false the handler returns before issuing any write, leaving every
observable unchanged. -/
theorem submit_confirmation_success_effects :
    (∀ (env : FlowEnv) (u : Nat) (order : OrderRow) (step : Step),
      env.currentUser = some u → env.serviceOk = true → env.updateOk = true →
      handleSubmitForConfirmation env true true order step =
        { order := { order with
            status := OrderStatus.PENDING_ADMIN_CONFIRMATION,
            not_test_order_confirmed_at := some env.now,
            payment_terms_confirmed_at := some env.now,
            client_po_confirmation_submitted_at := some env.now },
          notifications := [poSubmittedNotification],
          step := Step.pending,
          serviceWriteHappened := true, toastSuccess := true, toastError := false }) ∧
    (∀ (env : FlowEnv) (order : OrderRow) (step : Step) (b1 b2 : Bool),
      b1 = false ∨ b2 = false →
      handleSubmitForConfirmation env b1 b2 order step =
        { order := order, notifications := [], step := step,
          serviceWriteHappened := false, toastSuccess := false, toastError := false }) := by
  constructor
  · intro env u order step hu hs hup
    unfold handleSubmitForConfirmation
    rw [hu, hs, hup]
    simp
  · intro env order step b1 b2 hb
    unfold handleSubmitForConfirmation
    by_cases hcu : env.currentUser = none
    · rw [if_pos hcu]
    · rw [if_neg hcu, if_pos hb]

/-- A successful submit environment for user 7 at instant 500. -/
def envOk : FlowEnv := { currentUser := some 7, now := 500, serviceOk := true, updateOk := true }

/-- C6 witness: submitting orderA in envOk with both checkboxes produces the
fully confirmed row, one notification and the pending step, and submitting
with the first checkbox unchecked changes nothing. -/
theorem submit_confirmation_success_effects_w :
    handleSubmitForConfirmation envOk true true orderA Step.confirmation =
      { order := { orderA with
          status := OrderStatus.PENDING_ADMIN_CONFIRMATION,
          not_test_order_confirmed_at := some 500,
          payment_terms_confirmed_at := some 500,
          client_po_confirmation_submitted_at := some 500 },
        notifications := [poSubmittedNotification],
        step := Step.pending,
        serviceWriteHappened := true, toastSuccess := true, toastError := false } ∧
    handleSubmitForConfirmation envOk false true orderA Step.confirmation =
      { order := orderA, notifications := [], step := Step.confirmation,
        serviceWriteHappened := false, toastSuccess := false, toastError := false } :=
  ⟨submit_confirmation_success_effects.1 envOk 7 orderA Step.confirmation rfl rfl rfl,
    submit_confirmation_success_effects.2 envOk orderA Step.confirmation false true
      (Or.inl rfl)⟩

/-- C8: when either awaited write throws, the handler catches the failure,
shows the error toast, and leaves the order row of the store projection, the
notification queue and the step unchanged, so a submit attempted from the
confirmation step remains in the confirmation step. -/
theorem submit_failure_keeps_state (env : FlowEnv) (u : Nat) (order : OrderRow) (step : Step)
    (hu : env.currentUser = some u)
    (hfail : env.serviceOk = false ∨ env.updateOk = false) :
    (handleSubmitForConfirmation env true true order step).toastError = true ∧
    (handleSubmitForConfirmation env true true order step).order = order ∧
    (handleSubmitForConfirmation env true true order step).notifications = [] ∧
    (handleSubmitForConfirmation env true true order step).step = step := by
  unfold handleSubmitForConfirmation
  rw [hu]
  rcases hfail with hf | hf
  · rw [hf]
    simp
  · rw [hf]
    by_cases hs : env.serviceOk = false
    · rw [if_pos hs]
      simp
    · rw [if_neg hs]
      simp

/-- An environment whose updateOrder write throws. -/
def envUpdateFails : FlowEnv :=
  { currentUser := some 7, now := 500, serviceOk := true, updateOk := false }

/-- C8 witness: with the updateOrder write failing, the submit from the
confirmation step shows the error toast and leaves order, notifications and
step exactly as they were. -/
theorem submit_failure_keeps_state_w :
    (handleSubmitForConfirmation envUpdateFails true true orderA Step.confirmation).toastError =
      true ∧
    (handleSubmitForConfirmation envUpdateFails true true orderA Step.confirmation).order =
      orderA ∧
    (handleSubmitForConfirmation envUpdateFails true true orderA
      Step.confirmation).notifications = [] ∧
    (handleSubmitForConfirmation envUpdateFails true true orderA Step.confirmation).step =
      Step.confirmation :=
  submit_failure_keeps_state envUpdateFails 7 orderA Step.confirmation rfl (Or.inr rfl)

/-- C7: when the loaded store contains the order, the mounted component shows
the pending (Submitted) step exactly when the row carries a non-null overall
submission timestamp or both individual confirmation timestamps, and otherwise
stays on the initial confirmation (Unconfirmed) step. -/
theorem workflow_resume_from_row (orders : List OrderRow) (orderId : Nat) (o : OrderRow)
    (hfind : orders.find? (fun item => item.id == orderId) = some o) :
    (hasSubmittedConfirmation o = true → loadStep orders orderId = Step.pending) ∧
    (hasSubmittedConfirmation o = false → loadStep orders orderId = Step.confirmation) := by
  constructor
  · intro h
    unfold loadStep resumeEffect
    rw [hfind]
    simp [h]
  · intro h
    unfold loadStep resumeEffect
    rw [hfind]
    simp [h, initialStep]

/-- C7 witness: loading the two-row store on the fully confirmed copy of
orderB resumes in the pending step, and loading it on the unconfirmed orderA
starts in the confirmation step. -/
theorem workflow_resume_from_row_w :
    loadStep [orderA, { orderB with client_po_confirmation_submitted_at := some 400 }] 2 =
      Step.pending ∧
    loadStep [orderA, orderB] 1 = Step.confirmation :=
  ⟨(workflow_resume_from_row
      [orderA, { orderB with client_po_confirmation_submitted_at := some 400 }] 2
      { orderB with client_po_confirmation_submitted_at := some 400 } (by decide)).1 (by decide),
    (workflow_resume_from_row [orderA, orderB] 1 orderA (by decide)).2 (by decide)⟩

/-- One trigger of the pg_trigger catalog as the phase 18 DO block sees it:
its name, its tgtype bit mask and whether it is internal.  The created
trigger trg_enforce_safe_user_profile_update is BEFORE UPDATE FOR EACH ROW,
so its tgtype carries the ROW (1), BEFORE (2) and UPDATE (16) bits. -/
structure Trigger where
  name : String
  tgtype : Nat
  internal : Bool
  deriving DecidableEq, Repr

/-- The catalog state touched by the three migrations: the columns of
public.orders, the policies on public.orders, the triggers and functions
around public.users, and the migration log. -/
structure DbState where
  orderColumns : List String
  orderPolicies : List String
  userTriggers : List Trigger
  userFunctions : List String
  migrationLog : List String
  deriving DecidableEq, Repr

/-- ALTER TABLE ... ADD COLUMN IF NOT EXISTS. -/
def addColumnIfNotExists (c : String) (cols : List String) : List String :=
  if cols.any (fun x => x == c) then cols else cols ++ [c]

/-- DROP POLICY IF EXISTS. -/
def dropPolicyIfExists (p : String) (ps : List String) : List String :=
  ps.filter (fun q => q != p)

/-- CREATE POLICY: errors when a policy of that name already exists. -/
def createPolicy (p : String) (ps : List String) : Except String (List String) :=
  if ps.any (fun q => q == p) then Except.error ("policy already exists: " ++ p)
  else Except.ok (ps ++ [p])

/-- DROP FUNCTION IF EXISTS ... CASCADE. -/
def dropFunctionIfExists (n : String) (fns : List String) : List String :=
  fns.filter (fun q => q != n)

/-- CREATE OR REPLACE FUNCTION. -/
def createOrReplaceFunction (n : String) (fns : List String) : List String :=
  if fns.any (fun q => q == n) then fns else fns ++ [n]

/-- CREATE TRIGGER: errors when a trigger of that name already exists. -/
def createTrigger (t : Trigger) (ts : List Trigger) : Except String (List Trigger) :=
  if ts.any (fun u => u.name == t.name) then
    Except.error ("trigger already exists: " ++ t.name)
  else Except.ok (ts ++ [t])

/-- The phase 18 DO block drops every non-internal trigger on public.users
whose tgtype has bit 16 set and whose name is not update_users_updated_at;
this predicate keeps the others. -/
def keepTriggerPhase18 (t : Trigger) : Bool :=
  t.internal || (t.tgtype &&& 16 != 16) || (t.name == "update_users_updated_at")

/-- INSERT INTO public._migration_log ... ON CONFLICT (migration_name)
DO NOTHING. -/
def logMigration (n : String) (log : List String) : List String :=
  if log.any (fun q => q == n) then log else log ++ [n]

/-- The trigger created by phase 18. -/
def trgEnforceSafeUserProfileUpdate : Trigger :=
  { name := "trg_enforce_safe_user_profile_update", tgtype := 19, internal := false }

/-- Steps 2 and 3 of phase 18 on the function catalog: drop the three legacy
guard functions, then CREATE OR REPLACE the new guard. -/
def phase18Functions (fns : List String) : List String :=
  createOrReplaceFunction "enforce_safe_user_profile_update"
    (dropFunctionIfExists "check_user_profile_update"
      (dropFunctionIfExists "enforce_safe_profile_update"
        (dropFunctionIfExists "restrict_user_profile_update" fns)))

/-- The phase 18 migration as one transaction: drop the restrictive triggers,
rebuild the guard function, create the trigger (an error aborts the whole
file), and log the migration name. -/
def applyPhase18 (s : DbState) : Except String DbState :=
  match createTrigger trgEnforceSafeUserProfileUpdate
      (s.userTriggers.filter keepTriggerPhase18) with
  | Except.error e => Except.error e
  | Except.ok trigs2 =>
    Except.ok { s with
      userTriggers := trigs2,
      userFunctions := phase18Functions s.userFunctions,
      migrationLog := logMigration "20260221_phase18_fix_user_profile_trigger.sql"
        s.migrationLog }

/-- The phase 20 migration as one transaction: the four ADD COLUMN IF NOT
EXISTS clauses and the DROP POLICY IF EXISTS succeed, but the following
CREATE POLICY "Clients can update own PO fields" has WITH CHECK
(... AND status = OLD.status), and OLD cannot be referenced from a policy
expression (the phase 21 header records exactly this), so the statement
errors and the transaction aborts with nothing committed: the INSERT policy
and the log entry further down the file are never reached. -/
def applyPhase20 (s : DbState) : Except String DbState :=
  let _cols := addColumnIfNotExists "client_po_uploaded"
    (addColumnIfNotExists "client_po_confirmation_submitted_at"
      (addColumnIfNotExists "payment_terms_confirmed_at"
        (addColumnIfNotExists "not_test_order_confirmed_at" s.orderColumns)))
  let _pols := dropPolicyIfExists "Clients can update own PO fields" s.orderPolicies
  Except.error "missing FROM-clause entry for table old"

/-- The phase 21 migration as one transaction: drop the client update policy
by name, recreate it with the subquery form, and log the migration name. -/
def applyPhase21 (s : DbState) : Except String DbState :=
  match createPolicy "Clients can update own PO fields"
      (dropPolicyIfExists "Clients can update own PO fields" s.orderPolicies) with
  | Except.error e => Except.error e
  | Except.ok pols =>
    Except.ok { s with
      orderPolicies := pols,
      migrationLog := logMigration "20260221_phase21_fix_client_order_rls.sql" s.migrationLog }

theorem any_beq_filter_bne {α : Type} [BEq α] [LawfulBEq α] (n : α) (l : List α) :
    (l.filter (fun q => q != n)).any (fun q => q == n) = false := by
  rw [List.any_filter]
  rw [List.any_eq_false]
  intro x _
  by_cases h : x = n
  · simp [h]
  · simp [h]

theorem filter_bne_idem {α : Type} [BEq α] (n : α) (l : List α) :
    (l.filter (fun q => q != n)).filter (fun q => q != n) = l.filter (fun q => q != n) := by
  rw [List.filter_filter]
  simp only [Bool.and_self]

theorem keepTrigger_filter_idem (l : List Trigger) :
    (l.filter keepTriggerPhase18).filter keepTriggerPhase18 = l.filter keepTriggerPhase18 := by
  rw [List.filter_filter]
  simp only [Bool.and_self]

theorem logMigration_idem (n : String) (l : List String) :
    logMigration n (logMigration n l) = logMigration n l := by
  by_cases h : l.any (fun q => q == n) = true
  · have h1 : logMigration n l = l := by unfold logMigration; rw [if_pos h]
    rw [h1, h1]
  · have h1 : logMigration n l = l ++ [n] := by unfold logMigration; rw [if_neg h]
    have h2 : ((l ++ [n]).any (fun q => q == n)) = true := by
      rw [List.any_append]; simp
    rw [h1]; unfold logMigration; rw [if_pos h2]

theorem dropFunction_eq_self (n : String) (l : List String)
    (h : ∀ x ∈ l, (x != n) = true) : dropFunctionIfExists n l = l := by
  unfold dropFunctionIfExists
  exact List.filter_eq_self.mpr h

theorem mem_phase18Functions (F : List String) (x : String)
    (hx : x ∈ phase18Functions F) :
    x ∈ dropFunctionIfExists "check_user_profile_update"
      (dropFunctionIfExists "enforce_safe_profile_update"
        (dropFunctionIfExists "restrict_user_profile_update" F)) ∨
    x = "enforce_safe_user_profile_update" := by
  unfold phase18Functions createOrReplaceFunction at hx
  split at hx
  · exact Or.inl hx
  · rcases List.mem_append.mp hx with h | h
    · exact Or.inl h
    · exact Or.inr (List.mem_singleton.mp h)

theorem phase18Functions_idem (F : List String) :
    phase18Functions (phase18Functions F) = phase18Functions F := by
  have hmem : ∀ x ∈ phase18Functions F,
      (x != "restrict_user_profile_update") = true ∧
      (x != "enforce_safe_profile_update") = true ∧
      (x != "check_user_profile_update") = true := by
    intro x hx
    rcases mem_phase18Functions F x hx with h | h
    · have h1 := List.of_mem_filter h
      have h2 := List.of_mem_filter (List.mem_of_mem_filter h)
      have h3 := List.of_mem_filter (List.mem_of_mem_filter (List.mem_of_mem_filter h))
      exact ⟨h3, h2, h1⟩
    · subst h
      exact ⟨by decide, by decide, by decide⟩
  have hd1 : dropFunctionIfExists "restrict_user_profile_update" (phase18Functions F) =
      phase18Functions F :=
    dropFunction_eq_self _ _ (fun x hx => (hmem x hx).1)
  have hd2 : dropFunctionIfExists "enforce_safe_profile_update" (phase18Functions F) =
      phase18Functions F :=
    dropFunction_eq_self _ _ (fun x hx => (hmem x hx).2.1)
  have hd3 : dropFunctionIfExists "check_user_profile_update" (phase18Functions F) =
      phase18Functions F :=
    dropFunction_eq_self _ _ (fun x hx => (hmem x hx).2.2)
  have hcontains : (phase18Functions F).any
      (fun q => q == "enforce_safe_user_profile_update") = true := by
    unfold phase18Functions createOrReplaceFunction
    split
    · assumption
    · rw [List.any_append]
      simp
  conv_lhs => rw [phase18Functions]
  rw [hd1, hd2, hd3]
  unfold createOrReplaceFunction
  rw [if_pos hcontains]

/-- C9: the claim states that re-running any migration produces no error and
no duplicate log entry.  Phases 18 and 21 are indeed idempotent: a second run
after a successful run succeeds and returns the identical state, log included.
Phase 20, however, errors on every application, first or repeated: its CREATE
POLICY statement references OLD.status, which is not a valid name inside a
policy expression, so the re-run is not error free. -/
theorem migration_second_run_behavior :
    (∀ s : DbState, applyPhase20 s = Except.error "missing FROM-clause entry for table old") ∧
    (∀ s s1 : DbState, applyPhase18 s = Except.ok s1 → applyPhase18 s1 = Except.ok s1) ∧
    (∀ s s1 : DbState, applyPhase21 s = Except.ok s1 → applyPhase21 s1 = Except.ok s1) := by
  refine ⟨fun s => rfl, ?_, ?_⟩
  · intro s s1 h
    unfold applyPhase18 at h
    by_cases hc : ((s.userTriggers.filter keepTriggerPhase18).any
        (fun u => u.name == trgEnforceSafeUserProfileUpdate.name)) = true
    · rw [show createTrigger trgEnforceSafeUserProfileUpdate
          (s.userTriggers.filter keepTriggerPhase18) =
          Except.error ("trigger already exists: " ++ trgEnforceSafeUserProfileUpdate.name) from by
        unfold createTrigger; rw [if_pos hc]] at h
      exact absurd h (by simp)
    · rw [show createTrigger trgEnforceSafeUserProfileUpdate
          (s.userTriggers.filter keepTriggerPhase18) =
          Except.ok (s.userTriggers.filter keepTriggerPhase18 ++
            [trgEnforceSafeUserProfileUpdate]) from by
        unfold createTrigger; rw [if_neg hc]] at h
      injection h with h
      subst h
      have hA : ((s.userTriggers.filter keepTriggerPhase18 ++
          [trgEnforceSafeUserProfileUpdate]).filter keepTriggerPhase18) =
          s.userTriggers.filter keepTriggerPhase18 := by
        rw [List.filter_append, keepTrigger_filter_idem]
        have hone : List.filter keepTriggerPhase18 [trgEnforceSafeUserProfileUpdate] = [] := by
          decide
        rw [hone, List.append_nil]
      unfold applyPhase18
      simp only [hA]
      rw [show createTrigger trgEnforceSafeUserProfileUpdate
          (s.userTriggers.filter keepTriggerPhase18) =
          Except.ok (s.userTriggers.filter keepTriggerPhase18 ++
            [trgEnforceSafeUserProfileUpdate]) from by
        unfold createTrigger; rw [if_neg hc]]
      simp only [phase18Functions_idem, logMigration_idem]
  · intro s s1 h
    unfold applyPhase21 at h
    have hc : ((dropPolicyIfExists "Clients can update own PO fields" s.orderPolicies).any
        (fun q => q == "Clients can update own PO fields")) = false := by
      unfold dropPolicyIfExists
      exact any_beq_filter_bne _ _
    rw [show createPolicy "Clients can update own PO fields"
        (dropPolicyIfExists "Clients can update own PO fields" s.orderPolicies) =
        Except.ok (dropPolicyIfExists "Clients can update own PO fields" s.orderPolicies ++
          ["Clients can update own PO fields"]) from by
      unfold createPolicy; rw [if_neg (by simp [hc])]] at h
    injection h with h
    subst h
    have hd : dropPolicyIfExists "Clients can update own PO fields"
        (dropPolicyIfExists "Clients can update own PO fields" s.orderPolicies ++
          ["Clients can update own PO fields"]) =
        dropPolicyIfExists "Clients can update own PO fields" s.orderPolicies := by
      unfold dropPolicyIfExists
      rw [List.filter_append, filter_bne_idem]
      have hone : List.filter (fun q => q != "Clients can update own PO fields")
          ["Clients can update own PO fields"] = [] := by decide
      rw [hone, List.append_nil]
    unfold applyPhase21
    simp only [hd]
    rw [show createPolicy "Clients can update own PO fields"
        (dropPolicyIfExists "Clients can update own PO fields" s.orderPolicies) =
        Except.ok (dropPolicyIfExists "Clients can update own PO fields" s.orderPolicies ++
          ["Clients can update own PO fields"]) from by
      unfold createPolicy; rw [if_neg (by simp [hc])]]
    simp only [logMigration_idem]

/-- The empty catalog state. -/
def dbInit : DbState :=
  { orderColumns := [], orderPolicies := [], userTriggers := [], userFunctions := [],
    migrationLog := [] }

/-- The catalog after one successful run of phase 18 from dbInit. -/
def dbAfter18 : DbState :=
  { orderColumns := [], orderPolicies := [],
    userTriggers := [trgEnforceSafeUserProfileUpdate],
    userFunctions := ["enforce_safe_user_profile_update"],
    migrationLog := ["20260221_phase18_fix_user_profile_trigger.sql"] }

/-- The catalog after one successful run of phase 21 from dbInit. -/
def dbAfter21 : DbState :=
  { orderColumns := [], orderPolicies := ["Clients can update own PO fields"],
    userTriggers := [], userFunctions := [],
    migrationLog := ["20260221_phase21_fix_client_order_rls.sql"] }

/-- C9 witness: phase 20 errors on the empty catalog, while re-running phase
18 and phase 21 on the states their first run produced succeeds and changes
nothing, the log included. -/
theorem migration_second_run_behavior_w :
    applyPhase20 dbInit = Except.error "missing FROM-clause entry for table old" ∧
    applyPhase18 dbAfter18 = Except.ok dbAfter18 ∧
    applyPhase21 dbAfter21 = Except.ok dbAfter21 :=
  ⟨migration_second_run_behavior.1 dbInit,
    migration_second_run_behavior.2.1 dbInit dbAfter18 (by rfl),
    migration_second_run_behavior.2.2 dbInit dbAfter21 (by rfl)⟩
